import Mathlib

/-!
Verification development for the citation-key resolution core of the
`autobib` repository (`src/easybib/core.py`).

The development shallowly embeds the Python source:

* the two key-classifier predicates `is_ads_bibcode` / `is_inspire_key`
  (regular-expression tests, implemented here as executable matchers over
  the character list of the key);
* the four client-level functions `get_inspire_bibtex`,
  `get_ads_info_from_inspire`, `search_ads_by_arxiv`, `get_ads_bibtex`.
  Each issues exactly one HTTP request, so the HTTP response to that
  request is passed explicitly as an argument.  A response carries its
  status code together with the result of parsing its body as JSON; a
  body that is not parseable JSON is modelled by `none`, and — exactly as
  in the source, which calls `response.json()` with no exception handler —
  the client then raises (`Except.error`) instead of returning a miss;
* the three fetch strategies and the `fetch_bibtex` dispatcher.  At this
  level the source consumes the client functions only through their
  results, so the strategies are parameterised by a `Services` record of
  deterministic response functions and return the source's
  `(bibtex, label)` pair.  "The strategy does not consult client X" is
  stated extensionally: the result is invariant under changing X's
  response on the relevant argument.
-/

namespace EasyBib

/-! ### Key classifier (`is_ads_bibcode`, `is_inspire_key`)

The Python source tests `re.match` against
`^\d{4}[A-Za-z&.]+\..*[A-Z]$` resp. `^[A-Za-z][A-Za-z0-9-]+:\d{4}[a-z]{2,3}$`.
We implement the two anchored matches as executable functions on the
key's character list, with CPython `re` semantics for `str` patterns:

* `\d` matches any Unicode decimal digit (category Nd): `isPyDigit`
  below enumerates the code-point ranges CPython accepts;
* `.` matches any character except a newline;
* a final `$` matches at the end of the string and also just before a
  newline that ends the string (`matchWithTrailingNewline`);
* the explicit classes `[A-Za-z&.]`, `[A-Z]`, `[a-z]`, `[A-Za-z0-9-]`
  are the literal ASCII ranges. -/

/-- Code-point ranges of the Unicode decimal digits (category Nd): the
character set matched by `\d` in a CPython `str` regular expression. -/
def pyDigitRanges : List (Nat × Nat) :=
  [
   (48, 57), (1632, 1641), (1776, 1785), (1984, 1993),
   (2406, 2415), (2534, 2543), (2662, 2671), (2790, 2799),
   (2918, 2927), (3046, 3055), (3174, 3183), (3302, 3311),
   (3430, 3439), (3558, 3567), (3664, 3673), (3792, 3801),
   (3872, 3881), (4160, 4169), (4240, 4249), (6112, 6121),
   (6160, 6169), (6470, 6479), (6608, 6617), (6784, 6793),
   (6800, 6809), (6992, 7001), (7088, 7097), (7232, 7241),
   (7248, 7257), (42528, 42537), (43216, 43225), (43264, 43273),
   (43472, 43481), (43504, 43513), (43600, 43609), (44016, 44025),
   (65296, 65305), (66720, 66729), (68912, 68921), (69734, 69743),
   (69872, 69881), (69942, 69951), (70096, 70105), (70384, 70393),
   (70736, 70745), (70864, 70873), (71248, 71257), (71360, 71369),
   (71472, 71481), (71904, 71913), (72016, 72025), (72784, 72793),
   (73040, 73049), (73120, 73129), (92768, 92777), (92864, 92873),
   (93008, 93017), (120782, 120831), (123200, 123209), (123632, 123641),
   (125264, 125273), (130032, 130041)]

/-- Membership in the `\d` class of a CPython regular expression
(Unicode decimal digits, not only ASCII `0`-`9`). -/
def isPyDigit (c : Char) : Bool :=
  pyDigitRanges.any (fun r => r.1 ≤ c.toNat && c.toNat ≤ r.2)

/-- Character class `[A-Za-z&.]` of the ADS bibcode pattern. -/
def isAdsClassChar (c : Char) : Bool :=
  c.isAlpha || c = '&' || c = '.'

/-- Matches `[A-Za-z&.]*\..*` where `.*` excludes newlines: the input is a
(possibly empty) run of class characters, then a literal dot, then
arbitrary non-newline characters. -/
def adsAfterOne : List Char → Bool
  | [] => false
  | c :: rest =>
      (c = '.' && rest.all (fun x => x ≠ '\n')) ||
      (isAdsClassChar c && adsAfterOne rest)

/-- Matches `[A-Za-z&.]+\..*` (nonempty class run, then a dot, then
arbitrary non-newline characters). -/
def adsMiddle : List Char → Bool
  | [] => false
  | c :: rest => isAdsClassChar c && adsAfterOne rest

/-- Anchored match of `\d{4}[A-Za-z&.]+\..*[A-Z]` against a whole
character list. -/
def ads_regex_core : List Char → Bool
  | d1 :: d2 :: d3 :: d4 :: rest =>
      isPyDigit d1 && isPyDigit d2 && isPyDigit d3 && isPyDigit d4 &&
      (match rest.getLast? with
       | some z => z.isUpper && adsMiddle rest.dropLast
       | none => false)
  | _ => false

/-- Python `re.match` of a `^...$` pattern whose core match is `p`: the
pattern must consume the whole string, or the whole string minus a
single trailing newline — a final `$` also matches just before a
newline that terminates the string. -/
def matchWithTrailingNewline (p : List Char → Bool) (cs : List Char) : Bool :=
  p cs ||
  (match cs.getLast? with
   | some c => c = '\n' && p cs.dropLast
   | none => false)

/-- Source `re.match(ads_pattern, key)` of `is_ads_bibcode`. -/
def ads_regex_match (key : String) : Bool :=
  matchWithTrailingNewline ads_regex_core key.toList

/-- Source `is_ads_bibcode`: the pattern match plus the length
floor `len(key) >= 15`. -/
def is_ads_bibcode (key : String) : Bool :=
  ads_regex_match key && decide (15 ≤ key.length)

/-- Character class `[A-Za-z0-9-]` of the INSPIRE texkey pattern. -/
def isInspireBodyChar (c : Char) : Bool :=
  c.isAlphanum || c = '-'

/-- Matches `\d{4}[a-z]{2,3}` against the whole remaining input. -/
def inspireYear : List Char → Bool
  | d1 :: d2 :: d3 :: d4 :: tail =>
      isPyDigit d1 && isPyDigit d2 && isPyDigit d3 && isPyDigit d4 &&
      (match tail with
       | [a, b] => a.isLower && b.isLower
       | [a, b, c] => a.isLower && b.isLower && c.isLower
       | _ => false)
  | _ => false

/-- Matches `[A-Za-z0-9-]*:\d{4}[a-z]{2,3}` against the whole remaining
input: a (possibly empty) run of body characters, a colon, then the
year/disambiguator tail. -/
def inspireColon : List Char → Bool
  | [] => false
  | c :: rest =>
      (c = ':' && inspireYear rest) ||
      (isInspireBodyChar c && inspireColon rest)

/-- Anchored match of `[A-Za-z][A-Za-z0-9-]+:\d{4}[a-z]{2,3}` against a
whole character list. -/
def inspire_regex_core : List Char → Bool
  | c0 :: c1 :: rest => c0.isAlpha && isInspireBodyChar c1 && inspireColon rest
  | _ => false

/-- Source `is_inspire_key`: `re.match` of
`^[A-Za-z][A-Za-z0-9-]+:\d{4}[a-z]{2,3}$`. -/
def is_inspire_key (key : String) : Bool :=
  matchWithTrailingNewline inspire_regex_core key.toList

/-! #### Declarative regular-expression semantics

The spec states the classifiers by their regular expressions; the
following propositions are those expressions' concatenation semantics
under CPython `re.match` (Unicode `\d`, and a final `$` matching before
one trailing newline), to be proved equivalent to the executable
matchers above. -/

/-- A character list matches `\d{4}[A-Za-z&.]+\..*[A-Z]` in full: four
decimal digits, a nonempty run of `[A-Za-z&.]` characters, a literal
dot, arbitrary non-newline characters, and a final uppercase letter. -/
def AdsRegexMatchCore (cs : List Char) : Prop :=
  ∃ (d1 d2 d3 d4 : Char) (u v : List Char) (z : Char),
    cs = d1 :: d2 :: d3 :: d4 :: (u ++ '.' :: (v ++ [z])) ∧
    (isPyDigit d1 ∧ isPyDigit d2 ∧ isPyDigit d3 ∧ isPyDigit d4) ∧
    u ≠ [] ∧ (∀ c ∈ u, isAdsClassChar c = true) ∧
    (∀ c ∈ v, c ≠ '\n') ∧ z.isUpper

/-- A key matches `^\d{4}[A-Za-z&.]+\..*[A-Z]$` under Python `re.match`:
the core pattern consumes the whole key, or the whole key minus a
single trailing newline. -/
def AdsRegexMatch (key : String) : Prop :=
  AdsRegexMatchCore key.toList ∨
    ∃ l, key.toList = l ++ ['\n'] ∧ AdsRegexMatchCore l

/-- A character list matches `[A-Za-z][A-Za-z0-9-]+:\d{4}[a-z]{2,3}` in
full: a letter, a nonempty run of `[A-Za-z0-9-]` characters, a colon,
four decimal digits and two or three lowercase letters. -/
def InspireRegexMatchCore (cs : List Char) : Prop :=
  ∃ (c0 : Char) (body : List Char) (d1 d2 d3 d4 : Char) (ls : List Char),
    cs = c0 :: (body ++ ':' :: (d1 :: d2 :: d3 :: d4 :: ls)) ∧
    c0.isAlpha ∧ body ≠ [] ∧ (∀ c ∈ body, isInspireBodyChar c = true) ∧
    (isPyDigit d1 ∧ isPyDigit d2 ∧ isPyDigit d3 ∧ isPyDigit d4) ∧
    (ls.length = 2 ∨ ls.length = 3) ∧ (∀ c ∈ ls, c.isLower)

/-- A key matches `^[A-Za-z][A-Za-z0-9-]+:\d{4}[a-z]{2,3}$` under Python
`re.match`: the core pattern consumes the whole key, or the whole key
minus a single trailing newline. -/
def InspireRegexMatch (key : String) : Prop :=
  InspireRegexMatchCore key.toList ∨
    ∃ l, key.toList = l ++ ['\n'] ∧ InspireRegexMatchCore l

/-! ### Service clients

Each client issues exactly one HTTP request; the response to that request
is passed explicitly.  JSON bodies are modelled by the structure the
source actually reads out of them, with Python's `dict.get(k, default)`
defaults folded in: a missing field behaves exactly like the supplied
default, so a field read with a default is modelled as already carrying
that default, while a field read with `.get(k)` (default `None`) is an
`Option`.  `json? = none` models a body that is not parseable JSON, on
which Python's `response.json()` raises; the source installs no handler,
so the embedded client returns `Except.error` there. -/

/-- Code-point ranges of the characters Python's `str.isspace()`
accepts — the set `str.strip()` removes: `\t`, `\n`, `\x0b`, `\x0c`,
`\r`, `\x1c`-`\x1f`, space, and the Unicode whitespace characters. -/
def pySpaceRanges : List (Nat × Nat) :=
  [(9, 13), (28, 32), (133, 133), (160, 160), (5760, 5760), (8192, 8202),
   (8232, 8233), (8239, 8239), (8287, 8287), (12288, 12288)]

/-- Membership in Python's whitespace set (`str.isspace()`). -/
def isPySpace (c : Char) : Bool :=
  pySpaceRanges.any (fun r => r.1 ≤ c.toNat && c.toNat ≤ r.2)

/-- Python's `str.strip()`: remove leading and trailing characters of
the `str.isspace()` whitespace set.  (Defined structurally on the
character list so that it evaluates; `String.trim` is defined by
well-founded recursion, does not reduce, and strips a smaller set.) -/
def pyStrip (s : String) : String :=
  ⟨((s.data.dropWhile isPySpace).reverse.dropWhile isPySpace).reverse⟩

/-- Python's `str.startswith(p)`: prefix test on the character list. -/
def pyStartsWith (s p : String) : Bool :=
  p.data.isPrefixOf s.data

/-- A response consumed only through `status_code` and `text`
(`get_inspire_bibtex` never parses JSON). -/
structure TextResponse where
  status_code : Nat
  text : String

/-- Source `get_inspire_bibtex`: return the trimmed body on a 200 response whose
trimmed body is nonempty, else `None`. -/
def get_inspire_bibtex (resp : TextResponse) : Option String :=
  if resp.status_code = 200 ∧ ¬(pyStrip resp.text).isEmpty then
    some (pyStrip resp.text)
  else
    none

/-- One entry of INSPIRE's `external_system_identifiers` list; both fields
are read with `.get`, so either may be missing. -/
structure ExternalId where
  schema : Option String
  value : Option String

/-- One entry of INSPIRE's `arxiv_eprints` list; `value` is read with
`.get`. -/
structure ArxivEprint where
  value : Option String

/-- The metadata of one INSPIRE hit as the source reads it
(`hits[0].get("metadata", {})` with the two list fields defaulting to
`[]`). -/
structure InspireMetadata where
  external_system_identifiers : List ExternalId
  arxiv_eprints : List ArxivEprint

/-- The parsed body of an INSPIRE JSON response:
`data.get("hits", {}).get("hits", [])`, each hit reduced to its
metadata. -/
structure InspireJson where
  hits : List InspireMetadata

/-- Response to the INSPIRE metadata query of `get_ads_info_from_inspire`. -/
structure InspireJsonResponse where
  status_code : Nat
  json? : Option InspireJson

/-- The source's `for ext_id in external_ids: if ext_id.get("schema") ==
"ADS": ads_bibcode = ext_id.get("value"); break` loop: the value of the
first entry whose schema is `"ADS"` (possibly `None`), or `None` if no
entry matches. -/
def findAdsValue : List ExternalId → Option String
  | [] => none
  | e :: rest => if e.schema = some "ADS" then e.value else findAdsValue rest

/-- Source `get_ads_info_from_inspire`: from a 200 response, read the first hit's
first `"ADS"` external identifier and first arXiv eprint; `(None, None)`
on a non-200 status or zero hits.  An unparseable body raises. -/
def get_ads_info_from_inspire (resp : InspireJsonResponse) :
    Except String (Option String × Option String) :=
  if resp.status_code = 200 then
    match resp.json? with
    | none => .error "JSONDecodeError"
    | some data =>
        match data.hits with
        | [] => .ok (none, none)
        | metadata :: _ =>
            let ads_bibcode := findAdsValue metadata.external_system_identifiers
            let arxiv_id :=
              match metadata.arxiv_eprints with
              | [] => none
              | e :: _ => e.value
            .ok (ads_bibcode, arxiv_id)
  else
    .ok (none, none)

/-- One document of an ADS search result; `bibcode` is read with `.get`. -/
structure AdsSearchDoc where
  bibcode : Option String

/-- The parsed body of an ADS search response:
`result.get("response", {}).get("docs", [])`. -/
structure AdsSearchJson where
  docs : List AdsSearchDoc

/-- Response to the ADS search query of `search_ads_by_arxiv`. -/
structure AdsSearchResponse where
  status_code : Nat
  json? : Option AdsSearchJson

/-- Source `search_ads_by_arxiv`: the first document's bibcode from a 200
response, `None` on a non-200 status or no documents.  An unparseable
body raises. -/
def search_ads_by_arxiv (resp : AdsSearchResponse) :
    Except String (Option String) :=
  if resp.status_code = 200 then
    match resp.json? with
    | none => .error "JSONDecodeError"
    | some result =>
        match result.docs with
        | [] => .ok none
        | d :: _ => .ok d.bibcode
  else
    .ok none

/-- The parsed body of an ADS export response: the field read by
`result.get("export", "")` (missing behaves as `""`, folded into the
default of `getD` below). -/
structure AdsExportJson where
  exportField : Option String

/-- Response to the ADS export request of `get_ads_bibtex`. -/
structure AdsExportResponse where
  status_code : Nat
  json? : Option AdsExportJson

/-- Source `get_ads_bibtex`: from a 200 response, trim
`result.get("export", "")` and return it unless it is empty or starts
with `"No records"`; `None` otherwise.  An unparseable body raises. -/
def get_ads_bibtex (resp : AdsExportResponse) : Except String (Option String) :=
  if resp.status_code = 200 then
    match resp.json? with
    | none => .error "JSONDecodeError"
    | some result =>
        let exp := pyStrip (result.exportField.getD "")
        if ¬exp.isEmpty ∧ ¬(pyStartsWith exp "No records") then
          .ok (some exp)
        else
          .ok none
  else
    .ok none

/-! ### Fetch orchestrator

The strategies consume the clients only through their results, so they
are parameterised by a `Services` record of deterministic response
functions.  Python's truthiness test `if bibtex:` on a value that is a
string or `None` is `truthy` below (`None` and `""` are falsy).  Each
strategy returns the source's `(bibtex, label)` pair together with the
ordered trace of client calls it issued. -/

/-- Python truthiness of an optional string: `None` and `""` are falsy. -/
def truthy : Option String → Bool
  | none => false
  | some s => !s.isEmpty

/-- The client-call interface the strategies consume: each field is the
result of the corresponding client function on given arguments. -/
structure Services where
  getInspireBibtex : String → Option String
  getAdsInfoFromInspire : String → Option String × Option String
  searchAdsByArxiv : String → String → Option String
  getAdsBibtex : String → String → Option String

/-- A strategy's result: the source's `(bibtex, label)` pair. -/
abbrev FetchPair := Option String × Option String

/-- Source `fetch_bibtex_ads_preferred`: classified-bibcode attempt, then the
INSPIRE cross-reference (resolved bibcode, then arXiv search), then the
raw key as a bibcode, then INSPIRE directly. -/
def fetch_bibtex_ads_preferred (sv : Services) (key api_key : String) : FetchPair :=
  -- First check if it's already an ADS bibcode
  let direct := if is_ads_bibcode key then sv.getAdsBibtex key api_key else none
  if truthy direct then (direct, some "ADS (direct)") else
  -- Try to get ADS bibcode or arXiv ID from INSPIRE
  let ads_bibcode := (sv.getAdsInfoFromInspire key).1
  let arxiv_id := (sv.getAdsInfoFromInspire key).2
  -- Try ADS bibcode first
  let viaInspire :=
    if truthy ads_bibcode then sv.getAdsBibtex (ads_bibcode.getD "") api_key else none
  if truthy viaInspire then
    (viaInspire, some ("ADS via INSPIRE (" ++ ads_bibcode.getD "" ++ ")")) else
  -- Fall back to arXiv ID search on ADS
  let searched :=
    if truthy arxiv_id then sv.searchAdsByArxiv (arxiv_id.getD "") api_key else none
  let viaArxiv :=
    if truthy searched then sv.getAdsBibtex (searched.getD "") api_key else none
  if truthy viaArxiv then
    (viaArxiv, some ("ADS via arXiv (" ++ arxiv_id.getD "" ++ ")")) else
  -- Try the key directly as ADS bibcode
  let fallback := sv.getAdsBibtex key api_key
  if truthy fallback then (fallback, some "ADS (direct fallback)") else
  -- Final fallback: fetch BibTeX directly from INSPIRE
  let inspire := sv.getInspireBibtex key
  if truthy inspire then (inspire, some "INSPIRE (fallback)") else
  (none, none)

/-- Source `fetch_bibtex_inspire_preferred`: INSPIRE directly, then (if the key
classifies as a bibcode) the key as a bibcode, then the INSPIRE
cross-reference (resolved bibcode, then arXiv search). -/
def fetch_bibtex_inspire_preferred (sv : Services) (key api_key : String) : FetchPair :=
  -- Try INSPIRE first
  let bibtex := sv.getInspireBibtex key
  if truthy bibtex then (bibtex, some "INSPIRE") else
  -- Fall back to ADS
  let direct := if is_ads_bibcode key then sv.getAdsBibtex key api_key else none
  if truthy direct then (direct, some "ADS (fallback, direct)") else
  -- Try to get ADS bibcode from INSPIRE metadata
  let ads_bibcode := (sv.getAdsInfoFromInspire key).1
  let arxiv_id := (sv.getAdsInfoFromInspire key).2
  let viaInspire :=
    if truthy ads_bibcode then sv.getAdsBibtex (ads_bibcode.getD "") api_key else none
  if truthy viaInspire then (viaInspire, some "ADS (fallback, via INSPIRE)") else
  let searched :=
    if truthy arxiv_id then sv.searchAdsByArxiv (arxiv_id.getD "") api_key else none
  let viaArxiv :=
    if truthy searched then sv.getAdsBibtex (searched.getD "") api_key else none
  if truthy viaArxiv then (viaArxiv, some "ADS (fallback, via arXiv)") else
  (none, none)

/-- Source `fetch_bibtex_auto`: branch once on the key's classification; a
bibcode-shaped key tries ADS then INSPIRE, any other key tries INSPIRE
then the cross-reference paths. -/
def fetch_bibtex_auto (sv : Services) (key api_key : String) : FetchPair :=
  if is_ads_bibcode key then
    -- Key looks like ADS bibcode, prefer ADS
    let bibtex := sv.getAdsBibtex key api_key
    if truthy bibtex then (bibtex, some "ADS (auto)") else
    -- Fallback to INSPIRE
    let bibtex2 := sv.getInspireBibtex key
    if truthy bibtex2 then (bibtex2, some "INSPIRE (fallback)") else
    (none, none)
  else
    -- Key looks like INSPIRE key, prefer INSPIRE
    let bibtex := sv.getInspireBibtex key
    if truthy bibtex then (bibtex, some "INSPIRE (auto)") else
    -- Fallback to ADS via INSPIRE cross-reference
    let ads_bibcode := (sv.getAdsInfoFromInspire key).1
    let arxiv_id := (sv.getAdsInfoFromInspire key).2
    let viaInspire :=
      if truthy ads_bibcode then sv.getAdsBibtex (ads_bibcode.getD "") api_key else none
    if truthy viaInspire then (viaInspire, some "ADS (fallback, via INSPIRE)") else
    let searched :=
      if truthy arxiv_id then sv.searchAdsByArxiv (arxiv_id.getD "") api_key else none
    let viaArxiv :=
      if truthy searched then sv.getAdsBibtex (searched.getD "") api_key else none
    if truthy viaArxiv then (viaArxiv, some "ADS (fallback, via arXiv)") else
    (none, none)

/-- Source `fetch_bibtex`: dispatch on the strategy name, with ADS-preferred as
the branch for any unrecognized name. -/
def fetch_bibtex (sv : Services) (key api_key : String) (source : String) : FetchPair :=
  if source = "ads" then fetch_bibtex_ads_preferred sv key api_key
  else if source = "inspire" then fetch_bibtex_inspire_preferred sv key api_key
  else if source = "auto" then fetch_bibtex_auto sv key api_key
  else fetch_bibtex_ads_preferred sv key api_key

/-- The ADS-preferred strategy with its raw-key-as-bibcode fallback step
removed: used to show that for bibcode-shaped keys the raw-key step is
redundant. -/
def fetch_bibtex_ads_preferred_noraw (sv : Services) (key api_key : String) : FetchPair :=
  let direct := if is_ads_bibcode key then sv.getAdsBibtex key api_key else none
  if truthy direct then (direct, some "ADS (direct)") else
  let ads_bibcode := (sv.getAdsInfoFromInspire key).1
  let arxiv_id := (sv.getAdsInfoFromInspire key).2
  let viaInspire :=
    if truthy ads_bibcode then sv.getAdsBibtex (ads_bibcode.getD "") api_key else none
  if truthy viaInspire then
    (viaInspire, some ("ADS via INSPIRE (" ++ ads_bibcode.getD "" ++ ")")) else
  let searched :=
    if truthy arxiv_id then sv.searchAdsByArxiv (arxiv_id.getD "") api_key else none
  let viaArxiv :=
    if truthy searched then sv.getAdsBibtex (searched.getD "") api_key else none
  if truthy viaArxiv then
    (viaArxiv, some ("ADS via arXiv (" ++ arxiv_id.getD "" ++ ")")) else
  let inspire := sv.getInspireBibtex key
  if truthy inspire then (inspire, some "INSPIRE (fallback)") else
  (none, none)

/-- The pairing invariant of a strategy result: either both the record
and the label are present, or both are absent. -/
def pairedResult (p : FetchPair) : Prop :=
  (p.1.isSome = true ∧ p.2.isSome = true) ∨ (p.1 = none ∧ p.2 = none)

/-! ### Concrete service assignments used in witnesses and
counterexamples -/

/-- Every client call misses. -/
def svAllMiss : Services where
  getInspireBibtex := fun _ => none
  getAdsInfoFromInspire := fun _ => (none, none)
  searchAdsByArxiv := fun _ _ => none
  getAdsBibtex := fun _ _ => none

/-- The cross-reference resolver yields both a bibcode and an arXiv id;
fetching the resolved bibcode misses, while the arXiv search and the
fetch of the searched bibcode succeed. -/
def svArxivPath : Services where
  getInspireBibtex := fun _ => none
  getAdsInfoFromInspire := fun _ => (some "1998AdTMP...2..231M", some "2301.01234")
  searchAdsByArxiv := fun a _ => if a = "2301.01234" then some "2000Found...1....1X" else none
  getAdsBibtex := fun b _ => if b = "2000Found...1....1X" then some "@article{x}" else none

/-- Every client call misses except fetching the bibcode
`2016PhRvL.116f1102A` from ADS. -/
def svRawKeyHit : Services where
  getInspireBibtex := fun _ => none
  getAdsInfoFromInspire := fun _ => (none, none)
  searchAdsByArxiv := fun _ _ => none
  getAdsBibtex := fun b _ => if b = "2016PhRvL.116f1102A" then some "@article{direct}" else none

/-- Every client call misses except fetching the literal string
`Maldacena:1997re` as a bibcode from ADS: differs from `svAllMiss` only
in the ADS export response for that one bibcode. -/
def svKeyOnlyHit : Services where
  getInspireBibtex := fun _ => none
  getAdsInfoFromInspire := fun _ => (none, none)
  searchAdsByArxiv := fun _ _ => none
  getAdsBibtex := fun b _ => if b = "Maldacena:1997re" then some "@article{raw}" else none

/-- An INSPIRE hit carrying a non-ADS identifier before an ADS one, and
one arXiv eprint. -/
def adsHit : InspireMetadata :=
  ⟨[⟨some "arXiv", some "9711200"⟩, ⟨some "ADS", some "1998AdTMP...2..231M"⟩],
   [⟨some "hep-th/9711200"⟩]⟩

/-- A second INSPIRE hit, present to show that only the first hit is
read. -/
def otherHit : InspireMetadata :=
  ⟨[⟨some "ADS", some "ZZZZ"⟩], [⟨some "0000.00000"⟩]⟩

/-- A 200 INSPIRE metadata response with two hits. -/
def inspireRespOk : InspireJsonResponse :=
  ⟨200, some ⟨[adsHit, otherHit]⟩⟩

/-- A 200 ADS export response whose payload needs trimming. -/
def adsExportRespOk : AdsExportResponse :=
  ⟨200, some ⟨some "  @article{y}  "⟩⟩

/-! ### Matcher correctness: the executable classifiers realise the
regular expressions stated in the spec -/

lemma adsAfterOne_iff (cs : List Char) :
    adsAfterOne cs = true ↔
      ∃ u v, cs = u ++ '.' :: v ∧ (∀ c ∈ u, isAdsClassChar c = true) ∧
        ∀ c ∈ v, c ≠ '\n' := by
  induction cs with
  | nil =>
      simp [adsAfterOne]
  | cons c rest ih =>
      simp only [adsAfterOne, Bool.or_eq_true, Bool.and_eq_true, decide_eq_true_eq,
        List.all_eq_true, ih]
      constructor
      · rintro (⟨rfl, hclean⟩ | ⟨hc, u, v, rfl, hu, hv⟩)
        · exact ⟨[], rest, rfl, by simp, fun x hx => by simpa using hclean x hx⟩
        · refine ⟨c :: u, v, rfl, ?_, hv⟩
          intro x hx
          rcases List.mem_cons.mp hx with rfl | hx
          · exact hc
          · exact hu x hx
      · rintro ⟨u, v, hcs, hu, hv⟩
        cases u with
        | nil =>
            rw [List.nil_append] at hcs
            injection hcs with h1 h2
            subst h1; subst h2
            exact Or.inl ⟨rfl, fun x hx => by simpa using hv x hx⟩
        | cons a u' =>
            rw [List.cons_append] at hcs
            injection hcs with h1 h2
            subst h1; subst h2
            exact Or.inr ⟨hu c (by simp),
              u', v, rfl, fun x hx => hu x (List.mem_cons_of_mem _ hx), hv⟩

lemma adsMiddle_iff (cs : List Char) :
    adsMiddle cs = true ↔
      ∃ u v, cs = u ++ '.' :: v ∧ u ≠ [] ∧ (∀ c ∈ u, isAdsClassChar c = true) ∧
        ∀ c ∈ v, c ≠ '\n' := by
  cases cs with
  | nil =>
      simp [adsMiddle]
  | cons c rest =>
      simp only [adsMiddle, Bool.and_eq_true, adsAfterOne_iff]
      constructor
      · rintro ⟨hc, u, v, rfl, hu, hv⟩
        refine ⟨c :: u, v, rfl, by simp, ?_, hv⟩
        intro x hx
        rcases List.mem_cons.mp hx with rfl | hx
        · exact hc
        · exact hu x hx
      · rintro ⟨u, v, hcs, hne, hu, hv⟩
        cases u with
        | nil => exact absurd rfl hne
        | cons a u' =>
            rw [List.cons_append] at hcs
            injection hcs with h1 h2
            subst h1; subst h2
            exact ⟨hu c (by simp),
              u', v, rfl, fun x hx => hu x (List.mem_cons_of_mem _ hx), hv⟩

lemma ads_regex_core_iff (cs : List Char) :
    ads_regex_core cs = true ↔ AdsRegexMatchCore cs := by
  unfold ads_regex_core AdsRegexMatchCore
  cases cs with
  | nil => simp
  | cons d1 t1 =>
    cases t1 with
    | nil => simp
    | cons d2 t2 =>
      cases t2 with
      | nil => simp
      | cons d3 t3 =>
        cases t3 with
        | nil => simp
        | cons d4 rest =>
          simp only [Bool.and_eq_true, List.cons.injEq]
          constructor
          · rintro ⟨⟨⟨⟨h1, h2⟩, h3⟩, h4⟩, hm⟩
            cases hz : rest.getLast? with
            | none => rw [hz] at hm; simp at hm
            | some z =>
              rw [hz, Bool.and_eq_true] at hm
              obtain ⟨hzu, hmid⟩ := hm
              obtain ⟨u, v, hdec, hne, hu, hv⟩ := (adsMiddle_iff _).mp hmid
              obtain ⟨ys, hys⟩ := List.getLast?_eq_some_iff.mp hz
              rw [hys, List.dropLast_concat] at hdec
              subst hdec
              refine ⟨d1, d2, d3, d4, u, v, z, ?_, ⟨h1, h2, h3, h4⟩, hne, hu, hv, hzu⟩
              refine ⟨rfl, rfl, rfl, rfl, ?_⟩
              rw [hys]
              simp
          · rintro ⟨e1, e2, e3, e4, u, v, z, ⟨r1, r2, r3, r4, hrest⟩,
              ⟨h1, h2, h3, h4⟩, hne, hu, hv, hz⟩
            subst r1; subst r2; subst r3; subst r4; subst hrest
            refine ⟨⟨⟨⟨h1, h2⟩, h3⟩, h4⟩, ?_⟩
            have hrw : u ++ '.' :: (v ++ [z]) = (u ++ '.' :: v) ++ [z] := by simp
            rw [hrw, List.getLast?_concat, List.dropLast_concat, Bool.and_eq_true]
            exact ⟨hz, (adsMiddle_iff _).mpr ⟨u, v, rfl, hne, hu, hv⟩⟩

lemma matchWithTrailingNewline_iff (p : List Char → Bool) (cs : List Char) :
    matchWithTrailingNewline p cs = true ↔
      p cs = true ∨ ∃ l, cs = l ++ ['\n'] ∧ p l = true := by
  unfold matchWithTrailingNewline
  rw [Bool.or_eq_true]
  refine or_congr Iff.rfl ?_
  cases hz : cs.getLast? with
  | none =>
      rw [List.getLast?_eq_none_iff] at hz
      subst hz
      constructor
      · intro h
        simp at h
      · rintro ⟨l, hl, -⟩
        exact absurd hl (by simp)
  | some c =>
      rw [Bool.and_eq_true, decide_eq_true_eq]
      constructor
      · rintro ⟨rfl, hp⟩
        obtain ⟨l, rfl⟩ := List.getLast?_eq_some_iff.mp hz
        rw [List.dropLast_concat] at hp
        exact ⟨l, rfl, hp⟩
      · rintro ⟨l, rfl, hp⟩
        rw [List.getLast?_concat] at hz
        injection hz with hc
        subst hc
        rw [List.dropLast_concat]
        exact ⟨rfl, hp⟩

lemma ads_regex_match_iff (key : String) :
    ads_regex_match key = true ↔ AdsRegexMatch key := by
  unfold ads_regex_match AdsRegexMatch
  rw [matchWithTrailingNewline_iff]
  exact or_congr (ads_regex_core_iff _)
    (exists_congr fun l => and_congr Iff.rfl (ads_regex_core_iff l))

lemma inspireTail_iff (tail : List Char) :
    (match tail with
     | [a, b] => a.isLower && b.isLower
     | [a, b, c] => a.isLower && b.isLower && c.isLower
     | _ => false) = true ↔
      (tail.length = 2 ∨ tail.length = 3) ∧ ∀ c ∈ tail, c.isLower := by
  match tail with
  | [] => simp
  | [a] => simp
  | [a, b] =>
      simp only [Bool.and_eq_true, List.length_cons, List.length_nil]
      constructor
      · rintro ⟨h1, h2⟩
        refine ⟨Or.inl (by decide), ?_⟩
        intro c hc
        rcases List.mem_cons.mp hc with rfl | hc
        · exact h1
        · rcases List.mem_cons.mp hc with rfl | hc
          · exact h2
          · simp at hc
      · rintro ⟨-, h⟩
        exact ⟨h a (by simp), h b (by simp)⟩
  | [a, b, c] =>
      simp only [Bool.and_eq_true, List.length_cons, List.length_nil]
      constructor
      · rintro ⟨⟨h1, h2⟩, h3⟩
        refine ⟨Or.inr (by decide), ?_⟩
        intro x hx
        rcases List.mem_cons.mp hx with rfl | hx
        · exact h1
        · rcases List.mem_cons.mp hx with rfl | hx
          · exact h2
          · rcases List.mem_cons.mp hx with rfl | hx
            · exact h3
            · simp at hx
      · rintro ⟨-, h⟩
        exact ⟨⟨h a (by simp), h b (by simp)⟩, h c (by simp)⟩
  | a :: b :: c :: d :: rest =>
      constructor
      · intro h
        simp at h
      · rintro ⟨h, -⟩
        simp only [List.length_cons] at h
        omega

lemma inspireYear_iff (cs : List Char) :
    inspireYear cs = true ↔
      ∃ d1 d2 d3 d4 ls, cs = d1 :: d2 :: d3 :: d4 :: ls ∧
        (isPyDigit d1 ∧ isPyDigit d2 ∧ isPyDigit d3 ∧ isPyDigit d4) ∧
        (ls.length = 2 ∨ ls.length = 3) ∧ ∀ c ∈ ls, c.isLower := by
  cases cs with
  | nil => simp [inspireYear]
  | cons d1 t1 =>
    cases t1 with
    | nil => simp [inspireYear]
    | cons d2 t2 =>
      cases t2 with
      | nil => simp [inspireYear]
      | cons d3 t3 =>
        cases t3 with
        | nil => simp [inspireYear]
        | cons d4 tail =>
          simp only [inspireYear, Bool.and_eq_true, List.cons.injEq, inspireTail_iff]
          constructor
          · rintro ⟨⟨⟨⟨h1, h2⟩, h3⟩, h4⟩, hl, hlo⟩
            exact ⟨d1, d2, d3, d4, tail, ⟨rfl, rfl, rfl, rfl, rfl⟩,
              ⟨h1, h2, h3, h4⟩, hl, hlo⟩
          · rintro ⟨e1, e2, e3, e4, ls, ⟨r1, r2, r3, r4, rls⟩,
              ⟨h1, h2, h3, h4⟩, hl, hlo⟩
            subst r1; subst r2; subst r3; subst r4; subst rls
            exact ⟨⟨⟨⟨h1, h2⟩, h3⟩, h4⟩, hl, hlo⟩

lemma inspireColon_iff (cs : List Char) :
    inspireColon cs = true ↔
      ∃ u rest, cs = u ++ ':' :: rest ∧ (∀ c ∈ u, isInspireBodyChar c = true) ∧
        inspireYear rest = true := by
  induction cs with
  | nil => simp [inspireColon]
  | cons c cs ih =>
      simp only [inspireColon, Bool.or_eq_true, Bool.and_eq_true, decide_eq_true_eq, ih]
      constructor
      · rintro (⟨rfl, hy⟩ | ⟨hc, u, rest, rfl, hu, hy⟩)
        · exact ⟨[], cs, rfl, by simp, hy⟩
        · refine ⟨c :: u, rest, rfl, ?_, hy⟩
          intro x hx
          rcases List.mem_cons.mp hx with rfl | hx
          · exact hc
          · exact hu x hx
      · rintro ⟨u, rest, hcs, hu, hy⟩
        cases u with
        | nil =>
            rw [List.nil_append] at hcs
            injection hcs with h1 h2
            subst h1; subst h2
            exact Or.inl ⟨rfl, hy⟩
        | cons a u' =>
            rw [List.cons_append] at hcs
            injection hcs with h1 h2
            subst h1; subst h2
            exact Or.inr ⟨hu c (by simp), u', rest, rfl,
              fun x hx => hu x (List.mem_cons_of_mem _ hx), hy⟩

lemma inspire_regex_core_iff (cs : List Char) :
    inspire_regex_core cs = true ↔ InspireRegexMatchCore cs := by
  unfold inspire_regex_core InspireRegexMatchCore
  cases cs with
  | nil => simp
  | cons c0 t0 =>
    cases t0 with
    | nil => simp
    | cons c1 rest =>
      simp only [Bool.and_eq_true, List.cons.injEq, inspireColon_iff]
      constructor
      · rintro ⟨⟨ha, hb⟩, u, rest', hdec, hu, hy⟩
        obtain ⟨d1, d2, d3, d4, ls, rfl, hd, hl, hlo⟩ := (inspireYear_iff _).mp hy
        refine ⟨c0, c1 :: u, d1, d2, d3, d4, ls, ⟨rfl, ?_⟩, ha, by simp, ?_, hd, hl, hlo⟩
        · rw [hdec]; simp
        · intro x hx
          rcases List.mem_cons.mp hx with rfl | hx
          · exact hb
          · exact hu x hx
      · rintro ⟨e0, body, d1, d2, d3, d4, ls, ⟨h0, hrest⟩, ha, hne, hbody, hd, hl, hlo⟩
        subst h0
        cases body with
        | nil => exact absurd rfl hne
        | cons b body' =>
            rw [List.cons_append] at hrest
            injection hrest with hb1 hb2
            subst hb1; subst hb2
            exact ⟨⟨ha, hbody c1 (by simp)⟩, body', d1 :: d2 :: d3 :: d4 :: ls, rfl,
              fun x hx => hbody x (List.mem_cons_of_mem _ hx),
              (inspireYear_iff _).mpr ⟨d1, d2, d3, d4, ls, rfl, hd, hl, hlo⟩⟩

lemma is_inspire_key_iff (key : String) :
    is_inspire_key key = true ↔ InspireRegexMatch key := by
  unfold is_inspire_key InspireRegexMatch
  rw [matchWithTrailingNewline_iff]
  exact or_congr (inspire_regex_core_iff _)
    (exists_congr fun l => and_congr Iff.rfl (inspire_regex_core_iff l))

/-! ### Orchestrator lemmas -/

lemma truthy_isSome {o : Option String} (h : truthy o = true) : o.isSome = true := by
  cases o with
  | none => simp [truthy] at h
  | some s => rfl

lemma truthy_eq_some {o : Option String} (h : truthy o = true) : o = some (o.getD "") := by
  cases o with
  | none => simp [truthy] at h
  | some s => rfl

lemma truthy_getD_ne {o : Option String} (h : truthy o = true) : o.getD "" ≠ "" := by
  cases o with
  | none => simp [truthy] at h
  | some s =>
      simp only [truthy, Bool.not_eq_true'] at h
      simp only [Option.getD_some]
      intro hs
      rw [hs] at h
      exact absurd h (by decide)

/-- Two strings differing within their first five characters stay
different after anything is appended to the first. -/
lemma append_ne_of_take_ne (p s t : String) (h5 : 5 ≤ p.data.length)
    (hne : p.data.take 5 ≠ t.data.take 5) : p ++ s ≠ t := by
  intro h
  apply hne
  have hd := congrArg String.data h
  rw [String.data_append] at hd
  have ht := congrArg (List.take 5) hd
  rwa [List.take_append_of_le_length h5] at ht

lemma viaInspire_label_ne (x : String) :
    "ADS via INSPIRE (" ++ x ++ ")" ≠ "ADS (direct fallback)" := by
  rw [String.append_assoc]
  exact append_ne_of_take_ne _ _ _ (by decide) (by decide)

lemma viaArxiv_label_ne (x : String) :
    "ADS via arXiv (" ++ x ++ ")" ≠ "ADS (direct fallback)" := by
  rw [String.append_assoc]
  exact append_ne_of_take_ne _ _ _ (by decide) (by decide)

lemma pairedResult_ads_preferred (sv : Services) (key api_key : String) :
    pairedResult (fetch_bibtex_ads_preferred sv key api_key) := by
  simp only [fetch_bibtex_ads_preferred]
  split_ifs <;>
    first
      | exact Or.inl ⟨truthy_isSome ‹_›, rfl⟩
      | exact Or.inr ⟨rfl, rfl⟩

lemma pairedResult_inspire_preferred (sv : Services) (key api_key : String) :
    pairedResult (fetch_bibtex_inspire_preferred sv key api_key) := by
  simp only [fetch_bibtex_inspire_preferred]
  split_ifs <;>
    first
      | exact Or.inl ⟨truthy_isSome ‹_›, rfl⟩
      | exact Or.inr ⟨rfl, rfl⟩

lemma pairedResult_auto (sv : Services) (key api_key : String) :
    pairedResult (fetch_bibtex_auto sv key api_key) := by
  simp only [fetch_bibtex_auto]
  split_ifs <;>
    first
      | exact Or.inl ⟨truthy_isSome ‹_›, rfl⟩
      | exact Or.inr ⟨rfl, rfl⟩

lemma pairedResult_fetch (sv : Services) (key api_key source : String) :
    pairedResult (fetch_bibtex sv key api_key source) := by
  unfold fetch_bibtex
  split_ifs <;>
    first
      | exact pairedResult_ads_preferred sv key api_key
      | exact pairedResult_inspire_preferred sv key api_key
      | exact pairedResult_auto sv key api_key

/-- Claim C1: for every service assignment, key, API key and strategy
name, the dispatch entry point `fetch_bibtex` and each of the three
strategy functions return either a record together with a label, or the
absent pair — never a record without a label or a label without a
record. -/
theorem fetch_pair_invariant (sv : Services) (key api_key source : String) :
    pairedResult (fetch_bibtex_ads_preferred sv key api_key) ∧
    pairedResult (fetch_bibtex_inspire_preferred sv key api_key) ∧
    pairedResult (fetch_bibtex_auto sv key api_key) ∧
    pairedResult (fetch_bibtex sv key api_key source) :=
  ⟨pairedResult_ads_preferred sv key api_key,
   pairedResult_inspire_preferred sv key api_key,
   pairedResult_auto sv key api_key,
   pairedResult_fetch sv key api_key source⟩

/-- Claim C5: for every strategy name other than "ads", "inspire" and
"auto", the dispatch entry point returns exactly the ADS-preferred
result (the unrecognized name falls through to the final else branch,
and no error is possible). -/
theorem fetch_bibtex_unrecognized_source (sv : Services) (key api_key source : String)
    (h1 : source ≠ "ads") (h2 : source ≠ "inspire") (h3 : source ≠ "auto") :
    fetch_bibtex sv key api_key source = fetch_bibtex_ads_preferred sv key api_key := by
  simp [fetch_bibtex, h1, h2, h3]

theorem fetch_bibtex_unrecognized_source_witness :
    fetch_bibtex svAllMiss "Maldacena:1997re" "TOKEN" "arxiv" =
      fetch_bibtex_ads_preferred svAllMiss "Maldacena:1997re" "TOKEN" :=
  fetch_bibtex_unrecognized_source svAllMiss "Maldacena:1997re" "TOKEN" "arxiv"
    (by decide) (by decide) (by decide)

/-- Claim C9: when every client call misses, each of the three
strategies returns the absent pair rather than an error. -/
theorem all_miss_returns_absent (sv : Services) (key api_key : String)
    (hI : ∀ k, sv.getInspireBibtex k = none)
    (hX : ∀ k, sv.getAdsInfoFromInspire k = (none, none))
    (_hS : ∀ a b, sv.searchAdsByArxiv a b = none)
    (hA : ∀ b a, sv.getAdsBibtex b a = none) :
    fetch_bibtex_ads_preferred sv key api_key = (none, none) ∧
    fetch_bibtex_inspire_preferred sv key api_key = (none, none) ∧
    fetch_bibtex_auto sv key api_key = (none, none) := by
  refine ⟨?_, ?_, ?_⟩ <;>
    simp [fetch_bibtex_ads_preferred, fetch_bibtex_inspire_preferred,
      fetch_bibtex_auto, hI, hX, hA, truthy]

theorem all_miss_returns_absent_witness :
    fetch_bibtex_ads_preferred svAllMiss "Maldacena:1997re" "TOKEN" = (none, none) ∧
    fetch_bibtex_inspire_preferred svAllMiss "Maldacena:1997re" "TOKEN" = (none, none) ∧
    fetch_bibtex_auto svAllMiss "Maldacena:1997re" "TOKEN" = (none, none) :=
  all_miss_returns_absent svAllMiss "Maldacena:1997re" "TOKEN"
    (fun _ => rfl) (fun _ => rfl) (fun _ _ => rfl) (fun _ _ => rfl)

/-- Claim C10: for a key classifying as an ADS bibcode, the ADS-preferred
strategy never reports the raw-key fallback label — that step repeats
the classified-bibcode call already made and missed — and removing the
raw-key fallback step leaves its result unchanged. -/
theorem ads_preferred_raw_fallback_redundant (sv : Services) (key api_key : String)
    (h : is_ads_bibcode key = true) :
    (fetch_bibtex_ads_preferred sv key api_key).2 ≠ some "ADS (direct fallback)" ∧
    fetch_bibtex_ads_preferred_noraw sv key api_key =
      fetch_bibtex_ads_preferred sv key api_key := by
  constructor
  · simp only [fetch_bibtex_ads_preferred, h]
    split_ifs <;> simp_all [truthy, viaInspire_label_ne, viaArxiv_label_ne]
  · simp only [fetch_bibtex_ads_preferred, fetch_bibtex_ads_preferred_noraw, h]
    split_ifs <;> simp_all

theorem ads_preferred_raw_fallback_redundant_witness :
    (fetch_bibtex_ads_preferred svAllMiss "2016PhRvL.116f1102A" "TOKEN").2 ≠
        some "ADS (direct fallback)" ∧
    fetch_bibtex_ads_preferred_noraw svAllMiss "2016PhRvL.116f1102A" "TOKEN" =
      fetch_bibtex_ads_preferred svAllMiss "2016PhRvL.116f1102A" "TOKEN" :=
  ads_preferred_raw_fallback_redundant svAllMiss "2016PhRvL.116f1102A" "TOKEN" (by decide)

/-- Claim C2 counterexample: services for which the cross-reference
resolver returns both a bibcode and an arXiv id, fetching the resolved
bibcode misses, and the raw-key and INSPIRE fallbacks miss — yet the
ADS-preferred strategy returns the ADS-via-arXiv record and label
instead of skipping the arXiv search and returning the absent pair. -/
theorem ads_preferred_arxiv_after_bibcode_miss_cex :
    svArxivPath.getAdsInfoFromInspire "Maldacena:1997re" =
        (some "1998AdTMP...2..231M", some "2301.01234") ∧
    svArxivPath.getAdsBibtex "1998AdTMP...2..231M" "TOKEN" = none ∧
    svArxivPath.getAdsBibtex "Maldacena:1997re" "TOKEN" = none ∧
    svArxivPath.getInspireBibtex "Maldacena:1997re" = none ∧
    fetch_bibtex_ads_preferred svArxivPath "Maldacena:1997re" "TOKEN" =
      (some "@article{x}", some "ADS via arXiv (2301.01234)") := by
  refine ⟨rfl, by decide, by decide, rfl, by decide⟩

/-- Claim C2 amended: the ADS-via-arXiv step runs whenever an arXiv id
was resolved and every earlier step missed — also when an ADS bibcode
was resolved but fetching it missed.  If the search and the subsequent
fetch then succeed, the strategy returns the arXiv-path record and
label. -/
theorem ads_preferred_arxiv_step (sv : Services) (key api_key : String)
    (hdirect : truthy (if is_ads_bibcode key then sv.getAdsBibtex key api_key
        else none) = false)
    (hvia : truthy (if truthy (sv.getAdsInfoFromInspire key).1 then
        sv.getAdsBibtex ((sv.getAdsInfoFromInspire key).1.getD "") api_key
        else none) = false)
    (harx : truthy (sv.getAdsInfoFromInspire key).2 = true)
    (hsearch : truthy (sv.searchAdsByArxiv
        ((sv.getAdsInfoFromInspire key).2.getD "") api_key) = true)
    (hfetch : truthy (sv.getAdsBibtex
        ((sv.searchAdsByArxiv ((sv.getAdsInfoFromInspire key).2.getD "") api_key).getD "")
        api_key) = true) :
    fetch_bibtex_ads_preferred sv key api_key =
      (sv.getAdsBibtex
        ((sv.searchAdsByArxiv ((sv.getAdsInfoFromInspire key).2.getD "") api_key).getD "")
        api_key,
       some ("ADS via arXiv (" ++ (sv.getAdsInfoFromInspire key).2.getD "" ++ ")")) := by
  simp [fetch_bibtex_ads_preferred, hdirect, hvia, harx, hsearch, hfetch]

theorem ads_preferred_arxiv_step_witness :
    fetch_bibtex_ads_preferred svArxivPath "Maldacena:1997re" "TOKEN" =
      (svArxivPath.getAdsBibtex
        ((svArxivPath.searchAdsByArxiv
          ((svArxivPath.getAdsInfoFromInspire "Maldacena:1997re").2.getD "") "TOKEN").getD "")
        "TOKEN",
       some ("ADS via arXiv (" ++
         (svArxivPath.getAdsInfoFromInspire "Maldacena:1997re").2.getD "" ++ ")")) :=
  ads_preferred_arxiv_step svArxivPath "Maldacena:1997re" "TOKEN"
    (by decide) (by decide) (by decide) (by decide) (by decide)

/-- Claim C3 counterexample: with every service missing except the ADS
export of the original (bibcode-shaped) key itself, the
INSPIRE-preferred strategy returns that record with label
"ADS (fallback, direct)" — it does make a direct bibcode attempt, and
the record returned could only have come from a FetchAdsBibtex call on
the original key. -/
theorem inspire_preferred_direct_attempt_cex :
    is_ads_bibcode "2016PhRvL.116f1102A" = true ∧
    svRawKeyHit.getInspireBibtex "2016PhRvL.116f1102A" = none ∧
    svRawKeyHit.getAdsInfoFromInspire "2016PhRvL.116f1102A" = (none, none) ∧
    fetch_bibtex_inspire_preferred svRawKeyHit "2016PhRvL.116f1102A" "TOKEN" =
      (some "@article{direct}", some "ADS (fallback, direct)") := by
  refine ⟨by decide, rfl, rfl, by decide⟩

/-- Claim C3 amended: the INSPIRE-preferred strategy tries INSPIRE
first, then — when the key classifies as an ADS bibcode — the key
itself as a bibcode (label "ADS (fallback, direct)"), then the
cross-reference steps; only the unconditional raw-key fallback of the
ADS-preferred strategy is omitted.  For a key that does not classify as
an ADS bibcode, and whose cross-reference and search responses never
produce the key itself as a bibcode, the result is independent of the
ADS export response for the key: FetchAdsBibtex is never consulted on
the original key. -/
theorem inspire_preferred_no_raw_key_dependence
    (sv sv' : Services) (key api_key : String)
    (hI : sv'.getInspireBibtex = sv.getInspireBibtex)
    (hX : sv'.getAdsInfoFromInspire = sv.getAdsInfoFromInspire)
    (hS : sv'.searchAdsByArxiv = sv.searchAdsByArxiv)
    (hA : ∀ b a, b ≠ key → sv'.getAdsBibtex b a = sv.getAdsBibtex b a)
    (hads : is_ads_bibcode key = false)
    (hb : (sv.getAdsInfoFromInspire key).1 ≠ some key)
    (hs : ∀ a, sv.searchAdsByArxiv a api_key ≠ some key) :
    fetch_bibtex_inspire_preferred sv' key api_key =
      fetch_bibtex_inspire_preferred sv key api_key := by
  have E2 : (if truthy (sv.getAdsInfoFromInspire key).1 then
      sv'.getAdsBibtex ((sv.getAdsInfoFromInspire key).1.getD "") api_key else none) =
      (if truthy (sv.getAdsInfoFromInspire key).1 then
      sv.getAdsBibtex ((sv.getAdsInfoFromInspire key).1.getD "") api_key else none) := by
    by_cases hbb : truthy (sv.getAdsInfoFromInspire key).1 = true
    · rw [if_pos hbb, if_pos hbb]
      refine hA _ _ fun he => hb ?_
      rw [truthy_eq_some hbb, he]
    · rw [if_neg hbb, if_neg hbb]
  have E3 : (if truthy (if truthy (sv.getAdsInfoFromInspire key).2 then
        sv.searchAdsByArxiv ((sv.getAdsInfoFromInspire key).2.getD "") api_key
        else none) then
      sv'.getAdsBibtex ((if truthy (sv.getAdsInfoFromInspire key).2 then
        sv.searchAdsByArxiv ((sv.getAdsInfoFromInspire key).2.getD "") api_key
        else none).getD "") api_key else none) =
      (if truthy (if truthy (sv.getAdsInfoFromInspire key).2 then
        sv.searchAdsByArxiv ((sv.getAdsInfoFromInspire key).2.getD "") api_key
        else none) then
      sv.getAdsBibtex ((if truthy (sv.getAdsInfoFromInspire key).2 then
        sv.searchAdsByArxiv ((sv.getAdsInfoFromInspire key).2.getD "") api_key
        else none).getD "") api_key else none) := by
    by_cases haa : truthy (sv.getAdsInfoFromInspire key).2 = true
    · rw [if_pos haa]
      by_cases hss : truthy (sv.searchAdsByArxiv
          ((sv.getAdsInfoFromInspire key).2.getD "") api_key) = true
      · rw [if_pos hss, if_pos hss]
        refine hA _ _ fun he => hs ((sv.getAdsInfoFromInspire key).2.getD "") ?_
        rw [truthy_eq_some hss, he]
      · rw [if_neg hss, if_neg hss]
    · rw [if_neg haa]
      have hnone : truthy (none : Option String) = false := rfl
      rw [if_neg (by rw [hnone]; exact Bool.false_ne_true), if_neg (by rw [hnone]; exact Bool.false_ne_true)]
  have hnot : ¬(is_ads_bibcode key = true) := by rw [hads]; exact Bool.false_ne_true
  simp only [fetch_bibtex_inspire_preferred, hI, hX, hS, if_neg hnot]
  rw [E2, E3]

theorem inspire_preferred_no_raw_key_dependence_witness :
    fetch_bibtex_inspire_preferred svKeyOnlyHit "Maldacena:1997re" "TOKEN" =
      fetch_bibtex_inspire_preferred svAllMiss "Maldacena:1997re" "TOKEN" :=
  inspire_preferred_no_raw_key_dependence svAllMiss svKeyOnlyHit "Maldacena:1997re" "TOKEN"
    rfl rfl rfl (fun b a hb => by
      simp only [svKeyOnlyHit, svAllMiss]
      rw [if_neg hb])
    (by decide) (by decide) (fun _ h => Option.noConfusion h)

/-! ### Client-level theorems -/

lemma findAdsValue_eq_find? (l : List ExternalId) :
    findAdsValue l =
      (l.find? (fun e => e.schema = some "ADS")).bind ExternalId.value := by
  induction l with
  | nil => rfl
  | cons e rest ih =>
      by_cases h : e.schema = some "ADS"
      · simp [findAdsValue, List.find?_cons, h]
      · simp [findAdsValue, List.find?_cons, h, ih]

/-- Claim C6: the cross-reference resolver reads only the first hit of a
200 response, returning the value of its first "ADS"-schema external
identifier and, independently of that, the value of its first arXiv
eprint; on a non-200 status or zero hits both outputs are absent. -/
theorem get_ads_info_from_inspire_spec (resp : InspireJsonResponse) :
    (resp.status_code ≠ 200 → get_ads_info_from_inspire resp = .ok (none, none)) ∧
    ∀ data, resp.status_code = 200 → resp.json? = some data →
      (data.hits = [] → get_ads_info_from_inspire resp = .ok (none, none)) ∧
      ∀ m rest, data.hits = m :: rest →
        get_ads_info_from_inspire resp =
          .ok ((m.external_system_identifiers.find?
                  (fun e => e.schema = some "ADS")).bind ExternalId.value,
               m.arxiv_eprints.head?.bind ArxivEprint.value) := by
  constructor
  · intro h
    simp [get_ads_info_from_inspire, h]
  · intro data h200 hjson
    constructor
    · intro hnil
      simp [get_ads_info_from_inspire, h200, hjson, hnil]
    · intro m rest hcons
      rcases harx : m.arxiv_eprints with _ | ⟨e, es⟩ <;>
        simp [get_ads_info_from_inspire, h200, hjson, hcons, harx,
          findAdsValue_eq_find?]

theorem get_ads_info_from_inspire_spec_witness :
    get_ads_info_from_inspire inspireRespOk =
      .ok (some "1998AdTMP...2..231M", some "hep-th/9711200") := by
  have h := ((get_ads_info_from_inspire_spec inspireRespOk).2
      ⟨[adsHit, otherHit]⟩ rfl rfl).2 adsHit [otherHit] rfl
  rw [h]
  rfl

/-- Claim C8: `get_ads_bibtex` yields a miss exactly on a non-200
status, or when the trimmed export payload of a parsed 200 response is
empty or starts with "No records"; otherwise it returns the trimmed
payload as the record. -/
theorem get_ads_bibtex_spec (resp : AdsExportResponse) :
    (resp.status_code ≠ 200 → get_ads_bibtex resp = .ok none) ∧
    ∀ result, resp.status_code = 200 → resp.json? = some result →
      (get_ads_bibtex resp = .ok none ↔
        ((pyStrip (result.exportField.getD "")).isEmpty = true ∨
         pyStartsWith (pyStrip (result.exportField.getD "")) "No records" = true)) ∧
      (¬((pyStrip (result.exportField.getD "")).isEmpty = true ∨
         pyStartsWith (pyStrip (result.exportField.getD "")) "No records" = true) →
        get_ads_bibtex resp = .ok (some (pyStrip (result.exportField.getD "")))) := by
  constructor
  · intro h
    simp [get_ads_bibtex, h]
  · intro result h200 hjson
    have hval : get_ads_bibtex resp =
        if ¬(pyStrip (result.exportField.getD "")).isEmpty ∧
           ¬pyStartsWith (pyStrip (result.exportField.getD "")) "No records" then
          .ok (some (pyStrip (result.exportField.getD "")))
        else .ok none := by
      simp [get_ads_bibtex, h200, hjson]
    by_cases hc : ¬(pyStrip (result.exportField.getD "")).isEmpty ∧
        ¬pyStartsWith (pyStrip (result.exportField.getD "")) "No records"
    · rw [hval, if_pos hc]
      constructor
      · constructor
        · intro hbad
          exact absurd hbad (by simp)
        · intro hD
          exact absurd hD (not_or.mpr hc)
      · intro _
        rfl
    · rw [hval, if_neg hc]
      have hD : (pyStrip (result.exportField.getD "")).isEmpty = true ∨
          pyStartsWith (pyStrip (result.exportField.getD "")) "No records" = true := by
        by_contra hnD
        exact hc ⟨fun hA => hnD (Or.inl hA), fun hB => hnD (Or.inr hB)⟩
      exact ⟨⟨fun _ => hD, fun _ => rfl⟩, fun hnD => absurd hD hnD⟩

theorem get_ads_bibtex_spec_witness :
    get_ads_bibtex adsExportRespOk = .ok (some "@article{y}") := by
  have h := ((get_ads_bibtex_spec adsExportRespOk).2
      ⟨some "  @article{y}  "⟩ rfl rfl).2 (by decide)
  rw [h]
  rfl

/-- Claim C4 (code bug witness): a 200-status response whose body is not
parseable JSON makes each JSON-reading client raise a JSON decoding
error that escapes, instead of being downgraded to a miss — the source
calls `response.json()` with no exception handler. -/
theorem clients_raise_on_unparseable_json :
    get_ads_bibtex ⟨200, none⟩ = .error "JSONDecodeError" ∧
    get_ads_info_from_inspire ⟨200, none⟩ = .error "JSONDecodeError" ∧
    search_ads_by_arxiv ⟨200, none⟩ = .error "JSONDecodeError" :=
  ⟨rfl, rfl, rfl⟩

/-- Claim C7: the classifiers are exactly the stated regular-expression
tests — `is_ads_bibcode` holds iff the key matches
`^\d{4}[A-Za-z&.]+\..*[A-Z]$` and has length at least 15,
`is_inspire_key` holds iff the key matches
`^[A-Za-z][A-Za-z0-9-]+:\d{4}[a-z]{2,3}$` — and the two examples from
the spec classify positively. -/
theorem classifier_spec :
    (∀ key : String,
      is_ads_bibcode key = true ↔ AdsRegexMatch key ∧ 15 ≤ key.length) ∧
    (∀ key : String, is_inspire_key key = true ↔ InspireRegexMatch key) ∧
    is_ads_bibcode "2016PhRvL.116f1102A" = true ∧
    is_inspire_key "Maldacena:1997re" = true := by
  refine ⟨?_, is_inspire_key_iff, by decide, by decide⟩
  intro key
  rw [is_ads_bibcode, Bool.and_eq_true, ads_regex_match_iff, decide_eq_true_eq]

theorem classifier_spec_witness :
    (AdsRegexMatch "2016PhRvL.116f1102A" ∧
      15 ≤ ("2016PhRvL.116f1102A" : String).length) ∧
    InspireRegexMatch "Maldacena:1997re\n" :=
  ⟨(classifier_spec.1 "2016PhRvL.116f1102A").mp (by decide),
   (classifier_spec.2.1 "Maldacena:1997re\n").mp (by decide)⟩

end EasyBib
